import Mathlib

/-!
# Verification of the usage accounting engine of a browser usage-monitor extension

Shallow embedding of the content script (`src/unnamed/part_001`, with the
background script `src/unnamed/part_000` and the earlier `src/content.js`)
of a client-side token-usage monitor: cost estimation, content-change
deduplication, counter accumulation and persistence, daily and
conversation-boundary resets, and warning-banner evaluation.

Machine numbers in the source are JS numbers used only at integer values
(counts, pixel areas, token costs), embedded as `Nat`; the ratio
computations divide integers and are embedded over `ℚ`; date strings and
URLs are embedded as `String`.
-/

/-! ## Constants (source lines 5–26 of the content script) -/

/-- Subscription tier: `selectedPlan` takes values free, pro, max. -/
inductive Plan where
  | free
  | pro
  | max
deriving DecidableEq, Repr

/-- `PLAN_LIMITS`: approximate daily token limits per tier. -/
def PLAN_LIMITS : Plan → Nat
  | .free => 100000
  | .pro => 500000
  | .max => 2000000

/-- `CONTEXT_WINDOW`: fixed context-window limit, tier-independent. -/
def CONTEXT_WINDOW : Nat := 200000

/-- `MESSAGE_LIMITS`: per-conversation message limits per tier. -/
def MESSAGE_LIMITS : Plan → Nat
  | .free => 50
  | .pro => 100
  | .max => 150

/-- The `IMAGE_TOKENS` constant object: three cost buckets for images. -/
structure ImageTokens where
  small : Nat
  medium : Nat
  large : Nat

/-- `IMAGE_TOKENS = { small: 1000, medium: 2500, large: 5000 }`. -/
def IMAGE_TOKENS : ImageTokens := { small := 1000, medium := 2500, large := 5000 }

/-- `WARNING_THRESHOLD = 0.8`: daily-limit warning threshold. -/
def WARNING_THRESHOLD : ℚ := 8/10

/-- `CHAT_WARNING_THRESHOLD = 0.7`: chat-capacity warning threshold. -/
def CHAT_WARNING_THRESHOLD : ℚ := 7/10

/-! ## Cost Estimator (source lines 29–45) -/

/-- `estimateTokens(text) = Math.ceil(text.length / 4)`, on a `Nat` length:
ceiling division `(len + 3) / 4`. -/
def estimateTokens (text : String) : Nat :=
  (text.length + 3) / 4

/-- An `img` element as read by the estimator: the four dimension
properties consulted by `estimateImageTokens`.  An absent / not-yet-laid-out
dimension reads as `0` (the JS falsy value triggering the `||` fallback). -/
structure ImgElement where
  naturalWidth : Nat
  width : Nat
  naturalHeight : Nat
  height : Nat
deriving DecidableEq, Repr

/-- `estimateImageTokens(imgElement)`: a null element returns the medium
bucket; otherwise `width = naturalWidth || width`,
`height = naturalHeight || height`, `pixels = width * height`, and a
three-bucket step function on `pixels`. -/
def estimateImageTokens : Option ImgElement → Nat
  | none => IMAGE_TOKENS.medium
  | some img =>
    let width := if img.naturalWidth ≠ 0 then img.naturalWidth else img.width
    let height := if img.naturalHeight ≠ 0 then img.naturalHeight else img.height
    let pixels := width * height
    if pixels < 250000 then IMAGE_TOKENS.small
    else if pixels < 1000000 then IMAGE_TOKENS.medium
    else IMAGE_TOKENS.large

/-! ## Content Change Detector and counter accumulation (source lines 96–158) -/

/-- The three in-memory counters written by `observeMessages`:
`currentConversationTokens`, `currentMessageCount`, `dailyTokens`. -/
structure Counters where
  currentConversationTokens : Nat
  currentMessageCount : Nat
  dailyTokens : Nat
deriving DecidableEq, Repr

/-- A message-container node as the detector sees it: the
`dataset.tokensCounted` dedup mark, its `textContent`, and the `img`
elements returned by `querySelectorAll('img')`. -/
structure MsgNode where
  tokensCounted : Bool
  text : String
  images : List ImgElement
deriving DecidableEq, Repr

/-- The token cost computed for a message node (source lines 109–119):
text tokens plus the sum of its image estimates. -/
def fragmentCost (n : MsgNode) : Nat :=
  estimateTokens n.text + (n.images.map (fun img => estimateImageTokens (some img))).sum

/-- The counter update of source lines 122–124: add the cost to the
conversation and daily token counters and increment the message count. -/
def applyTokens (s : Counters) (tokens : Nat) : Counters :=
  { currentConversationTokens := s.currentConversationTokens + tokens
    currentMessageCount := s.currentMessageCount + 1
    dailyTokens := s.dailyTokens + tokens }

/-- Processing of one matched message node (source lines 104–132): if the
dedup mark is set, skip; otherwise set the mark, price the node, and apply
the cost to the counters.  Returns the updated counters and node. -/
def processMessage (s : Counters) (n : MsgNode) : Counters × MsgNode :=
  if n.tokensCounted then (s, n)
  else (applyTokens s (fragmentCost n), { n with tokensCounted := true })

/-- The side effects of processing one node, in the statement order of the
source: the mark write (line 107), the pricing (lines 109–119), the counter
update (lines 122–124), the persistence attempt (lines 127–132). -/
inductive DetectorEvent where
  | markSet
  | priced (cost : Nat)
  | countersUpdated
  | persisted
deriving DecidableEq, Repr

/-- `processMessage` together with its ordered event trace.  A marked node
produces no events (the early return on line 106). -/
def processMessageEvents (s : Counters) (n : MsgNode) :
    Counters × MsgNode × List DetectorEvent :=
  if n.tokensCounted then (s, n, [])
  else (applyTokens s (fragmentCost n), { n with tokensCounted := true },
        [DetectorEvent.markSet, DetectorEvent.priced (fragmentCost n),
         DetectorEvent.countersUpdated, DetectorEvent.persisted])

/-- Folding a batch of message nodes through the detector. -/
def processAll (s : Counters) (frags : List MsgNode) : Counters :=
  frags.foldl (fun acc n => (processMessage acc n).1) s

/-! ## Persistence (source lines 121–132) -/

/-- In-memory counters paired with the last successfully persisted
snapshot of the three counter keys in the durable store. -/
structure LedgerState where
  mem : Counters
  store : Counters
deriving DecidableEq, Repr

/-- One fragment-cost application with its persistence attempt: the
in-memory counters are updated synchronously (lines 122–124) before
`storage.local.set` (lines 127–132) runs; the written record carries the
full current in-memory values.  `writeOk` tells whether the write
succeeded; a failed write leaves the stored snapshot as it was, and
nothing rolls the in-memory update back. -/
def applyFragmentPersist (st : LedgerState) (tokens : Nat) (writeOk : Bool) :
    LedgerState :=
  let mem' := applyTokens st.mem tokens
  { mem := mem', store := if writeOk then mem' else st.store }

/-! ## Warning banners (source lines 58–93 and 134–147) -/

/-- Banner severity class appended to the banner's class name. -/
inductive Severity where
  | warning
  | critical
deriving DecidableEq, Repr

/-- The `type` argument of `createWarningBanner`: daily-limit or
chat-capacity warnings. -/
inductive BannerType where
  | daily
  | chat
deriving DecidableEq, Repr

/-- The message/severity choice of `createWarningBanner` (lines 66–86):
for `chat`, `p ≥ 0.9` is critical and `p ≥ 0.7` a warning; for `daily`,
`p ≥ 0.95` is critical and `p ≥ 0.8` a warning; otherwise no message. -/
def bannerContent (p : ℚ) (ty : BannerType) : Option Severity :=
  match ty with
  | .chat =>
    if p ≥ 9/10 then some .critical
    else if p ≥ 7/10 then some .warning
    else none
  | .daily =>
    if p ≥ 95/100 then some .critical
    else if p ≥ 8/10 then some .warning
    else none

/-- `createWarningBanner(percentage, type)` acting on the page's single
banner slot: the element with the fixed id `token-tracker-banner` is
removed whenever present (lines 59–60), and a new banner is prepended only
when a message was chosen (lines 88–92).  The resulting slot content does
not depend on what was displayed before. -/
def createWarningBanner (_slot : Option (BannerType × Severity)) (p : ℚ)
    (ty : BannerType) : Option (BannerType × Severity) :=
  match bannerContent p ty with
  | some sev => some (ty, sev)
  | none => none

/-- The alert checks run after each applied fragment (lines 134–147):
first the daily check at `WARNING_THRESHOLD`, then the chat-capacity check
at `CHAT_WARNING_THRESHOLD`, each calling `createWarningBanner` on the
single banner slot. -/
def checkAlerts (slot : Option (BannerType × Severity)) (dailyPct chatPct : ℚ) :
    Option (BannerType × Severity) :=
  let slot1 := if dailyPct ≥ WARNING_THRESHOLD then
    createWarningBanner slot dailyPct .daily else slot
  if chatPct ≥ CHAT_WARNING_THRESHOLD then
    createWarningBanner slot1 chatPct .chat else slot1

/-! ## Ratios (source lines 135–143, limit tables lines 5–19) -/

/-- The ratio triple the ledger computes against the tier-scaled limits. -/
structure Ratios where
  dailyRatio : ℚ
  contextRatio : ℚ
  messageRatio : ℚ
deriving DecidableEq, Repr

/-- `getRatios`: the three capacity ratios as computed inline in
`observeMessages` (`dailyTokens / DAILY_LIMIT`,
`currentConversationTokens / CONTEXT_WINDOW`,
`currentMessageCount / MESSAGE_LIMIT`), exact over `ℚ`. -/
def getRatios (s : Counters) (plan : Plan) : Ratios :=
  { dailyRatio := (s.dailyTokens : ℚ) / (PLAN_LIMITS plan : ℚ)
    contextRatio := (s.currentConversationTokens : ℚ) / (CONTEXT_WINDOW : ℚ)
    messageRatio := (s.currentMessageCount : ℚ) / (MESSAGE_LIMITS plan : ℚ) }

/-! ## Lifecycle resets (source lines 428–438 and 467–491; background
script lines 52–62) -/

/-- The full durable state the lifecycle operations act on: the three
counters, `lastResetDate`, `lastUrl`, and `selectedPlan`. -/
structure FullState where
  currentConversationTokens : Nat
  currentMessageCount : Nat
  dailyTokens : Nat
  lastResetDate : String
  lastUrl : String
  selectedPlan : Plan
deriving DecidableEq, Repr

/-- `checkDailyReset` / `checkMidnightReset`: when the stored
`lastResetDate` differs from today's date string, zero `dailyTokens` and
stamp `lastResetDate` with today; otherwise do nothing. -/
def checkDailyReset (today : String) (s : FullState) : FullState :=
  if s.lastResetDate ≠ today then
    { s with dailyTokens := 0, lastResetDate := today }
  else s

/-- JS `String.prototype.includes` on the underlying character lists. -/
def charListIncludes (pat : List Char) : List Char → Bool
  | [] => pat.isEmpty
  | c :: rest => pat.isPrefixOf (c :: rest) || charListIncludes pat rest

/-- `haystack.includes(pat)` for strings. -/
def strIncludes (haystack pat : String) : Bool :=
  charListIncludes pat.data haystack.data

/-- An observed location: `window.location.pathname` and
`window.location.href`. -/
structure Location where
  pathname : String
  href : String
deriving DecidableEq, Repr

/-- One firing of the `urlObserver` callback (source lines 470–484): when
the pathname contains `/chat/` and the stored `lastUrl` differs from the
current href, zero the conversation counters and record the new href;
otherwise do nothing. -/
def urlObserverStep (loc : Location) (s : FullState) : FullState :=
  if strIncludes loc.pathname "/chat/" then
    if s.lastUrl ≠ loc.href then
      { s with currentConversationTokens := 0, currentMessageCount := 0,
               lastUrl := loc.href }
    else s
  else s

/-! ## Helper lemmas -/

theorem fragmentCost_mark (n : MsgNode) (b : Bool) :
    fragmentCost { n with tokensCounted := b } = fragmentCost n := by
  simp [fragmentCost]

theorem checkDailyReset_idem (today : String) (s : FullState) :
    checkDailyReset today (checkDailyReset today s) = checkDailyReset today s := by
  unfold checkDailyReset
  by_cases h : s.lastResetDate = today <;> simp [h]

theorem checkDailyReset_iterate (today : String) (s : FullState) (k : Nat) :
    (checkDailyReset today)^[k + 1] s = checkDailyReset today s := by
  induction k with
  | zero => rfl
  | succ k ih =>
    rw [Function.iterate_succ_apply', ih, checkDailyReset_idem]

theorem processAll_append (s : Counters) (l1 l2 : List MsgNode) :
    processAll s (l1 ++ l2) = processAll (processAll s l1) l2 := by
  simp [processAll, List.foldl_append]

theorem le_processAll_daily (s : Counters) (l : List MsgNode) :
    s.dailyTokens ≤ (processAll s l).dailyTokens := by
  induction l generalizing s with
  | nil => exact Nat.le_refl _
  | cons n rest ih =>
    refine Nat.le_trans ?_ (ih (processMessage s n).1)
    by_cases h : n.tokensCounted <;>
      simp [processMessage, h, applyTokens, Nat.le_add_right]

theorem le_processAll_conv (s : Counters) (l : List MsgNode) :
    s.currentConversationTokens ≤ (processAll s l).currentConversationTokens := by
  induction l generalizing s with
  | nil => exact Nat.le_refl _
  | cons n rest ih =>
    refine Nat.le_trans ?_ (ih (processMessage s n).1)
    by_cases h : n.tokensCounted <;>
      simp [processMessage, h, applyTokens, Nat.le_add_right]

theorem processAll_fresh_daily (s : Counters) (l : List MsgNode) :
    (processAll s (l.map fun n => { n with tokensCounted := false })).dailyTokens
      = s.dailyTokens + (l.map fragmentCost).sum := by
  induction l generalizing s with
  | nil => simp [processAll]
  | cons n rest ih =>
    simp only [List.map_cons, processAll, List.foldl_cons]
    have hstep : (processMessage s { n with tokensCounted := false }).1
        = applyTokens s (fragmentCost n) := by
      simp [processMessage, fragmentCost_mark]
    rw [show (List.foldl (fun acc n => (processMessage acc n).1)
          (processMessage s { n with tokensCounted := false }).1
          (rest.map fun n => { n with tokensCounted := false }))
        = processAll (processMessage s { n with tokensCounted := false }).1
          (rest.map fun n => { n with tokensCounted := false }) from rfl]
    rw [hstep, ih]
    simp [applyTokens, List.sum_cons, Nat.add_assoc]

/-! ## Claim theorems -/

/-- C1: the detector sets the dedup mark before pricing or emitting a
fragment (the event trace of an unmarked node starts with the mark write),
the mark is never cleared (the output node is always marked, and a marked
node passes through unchanged), and delivering an already-marked node a
second time leaves all three counters unchanged, so each fragment
increments the counters exactly once. -/
theorem detector_mark_before_emit_idempotent (s : Counters) (n : MsgNode) :
    processMessage s { n with tokensCounted := true }
      = (s, { n with tokensCounted := true })
    ∧ (processMessage s n).2.tokensCounted = true
    ∧ processMessage (processMessage s n).1 (processMessage s n).2 = processMessage s n
    ∧ (processMessageEvents s { n with tokensCounted := false }).2.2
        = [DetectorEvent.markSet, DetectorEvent.priced (fragmentCost n),
           DetectorEvent.countersUpdated, DetectorEvent.persisted] := by
  refine ⟨by simp [processMessage], ?_, ?_, ?_⟩
  · by_cases h : n.tokensCounted <;> simp [processMessage, h]
  · by_cases h : n.tokensCounted <;> simp [processMessage, h]
  · simp [processMessageEvents, fragmentCost_mark]

/-- C2 counterexample: when a fragment pushes both the daily and the
chat-capacity percentages past their critical thresholds, only one banner
remains on the page — the chat banner created second — because every
banner carries the fixed id token-tracker-banner and `createWarningBanner`
first removes any existing banner regardless of its dimension; moreover a
chat alert replaces a previously shown daily banner. -/
theorem alerts_share_single_banner_slot_cex :
    checkAlerts none 1 1 = some (BannerType.chat, Severity.critical)
    ∧ checkAlerts none 1 1 ≠ some (BannerType.daily, Severity.critical)
    ∧ createWarningBanner (some (BannerType.daily, Severity.warning)) (7/10)
        BannerType.chat = some (BannerType.chat, Severity.warning) := by
  refine ⟨?_, ?_, ?_⟩
  · norm_num [checkAlerts, createWarningBanner, bannerContent,
      WARNING_THRESHOLD, CHAT_WARNING_THRESHOLD]
  · norm_num [checkAlerts, createWarningBanner, bannerContent,
      WARNING_THRESHOLD, CHAT_WARNING_THRESHOLD]
    decide
  · norm_num [createWarningBanner, bannerContent]

/-- C2 amended: when both dimensions reach their thresholds after a
fragment, the daily banner is created first and the chat banner second;
since all banners share one element id, the chat banner is the only one
left showing, and a newly created banner replaces whatever banner was
shown before, independent of that banner's dimension. -/
theorem alerts_single_slot (slot slot2 : Option (BannerType × Severity))
    (dp cp : ℚ) (hd : dp ≥ WARNING_THRESHOLD) (hc : cp ≥ CHAT_WARNING_THRESHOLD) :
    checkAlerts slot dp cp
      = some (BannerType.chat,
          if cp ≥ 9/10 then Severity.critical else Severity.warning)
    ∧ createWarningBanner slot dp BannerType.daily
        = createWarningBanner slot2 dp BannerType.daily := by
  refine ⟨?_, rfl⟩
  have hc' : cp ≥ 7/10 := hc
  simp only [checkAlerts, hd, hc, if_pos]
  by_cases h9 : cp ≥ 9/10 <;>
    simp [createWarningBanner, bannerContent, h9, hc']

/-- C2 witness: the amended statement at a concrete pre-existing daily
banner, daily percentage 1 and chat percentage 3/4. -/
theorem alerts_single_slot_witness :
    checkAlerts (some (BannerType.daily, Severity.warning)) 1 (3/4)
      = some (BannerType.chat,
          if (3/4 : ℚ) ≥ 9/10 then Severity.critical else Severity.warning)
    ∧ createWarningBanner (some (BannerType.daily, Severity.warning)) 1
        BannerType.daily = createWarningBanner none 1 BannerType.daily :=
  alerts_single_slot (some (BannerType.daily, Severity.warning)) none 1 (3/4)
    (by norm_num [WARNING_THRESHOLD]) (by norm_num [CHAT_WARNING_THRESHOLD])

/-- C3 counterexample: an image element that is present but has no
measurable size (all four dimension properties read 0) has pixel area 0
and is priced at the small bucket 1000, not the claimed medium bucket
2500. -/
theorem image_missing_dims_cex :
    estimateImageTokens
        (some { naturalWidth := 0, width := 0, naturalHeight := 0, height := 0 })
      = 1000
    ∧ (1000 : Nat) ≠ 2500 := by
  exact ⟨rfl, by decide⟩

/-- C3 amended: only an absent (null) image element defaults to the
medium bucket 2500; a present element with no measurable size falls
through the dimension fallbacks to pixel area 0 and gets the small bucket
1000; in both cases the estimator returns a value and never fails. -/
theorem image_missing_dims_amended (img : ImgElement) :
    estimateImageTokens none = IMAGE_TOKENS.medium
    ∧ estimateImageTokens none = 2500
    ∧ estimateImageTokens (some { img with naturalWidth := 0, width := 0 }) = 1000 := by
  refine ⟨rfl, rfl, ?_⟩
  simp [estimateImageTokens, IMAGE_TOKENS]

/-- C4: when the stored `lastResetDate` equals today the daily-reset
check changes nothing at all; when it differs the check zeroes
`dailyTokens` and stamps `lastResetDate` with today; and running the
check k+1 times on the same day equals running it once. -/
theorem daily_reset_correct (tok : Nat) (d today : String) (s : FullState) (k : Nat) :
    checkDailyReset today { s with lastResetDate := today }
      = { s with lastResetDate := today }
    ∧ (d = today
        ∨ checkDailyReset today { s with dailyTokens := tok, lastResetDate := d }
            = { s with dailyTokens := 0, lastResetDate := today })
    ∧ (checkDailyReset today)^[k + 1] s = checkDailyReset today s := by
  refine ⟨by simp [checkDailyReset], ?_, checkDailyReset_iterate today s k⟩
  by_cases h : d = today
  · exact Or.inl h
  · exact Or.inr (by simp [checkDailyReset, h])

/-- C5: a location change whose pathname contains `/chat/` and whose href
differs from the stored `lastUrl` zeroes the conversation counters and
records the new href; a location change outside a conversation view
changes nothing; and revisiting conversation A after moving A → B → A
yields zeroed counters again, not A's prior values. -/
theorem conversation_reset_correct (s : FullState) (locA locB locC : Location)
    (hA : strIncludes locA.pathname "/chat/" = true)
    (hB : strIncludes locB.pathname "/chat/" = true)
    (hC : strIncludes locC.pathname "/chat/" = false)
    (hsA : s.lastUrl ≠ locA.href)
    (hAB : locA.href ≠ locB.href) :
    urlObserverStep locA s
      = { s with currentConversationTokens := 0, currentMessageCount := 0,
                 lastUrl := locA.href }
    ∧ urlObserverStep locC s = s
    ∧ urlObserverStep locA (urlObserverStep locB (urlObserverStep locA s))
      = { s with currentConversationTokens := 0, currentMessageCount := 0,
                 lastUrl := locA.href } := by
  refine ⟨by simp [urlObserverStep, hA, hsA], by simp [urlObserverStep, hC], ?_⟩
  simp [urlObserverStep, hA, hB, hsA, hAB, Ne.symm hAB]

/-- C5 witness: the conversation-reset theorem at concrete conversation
locations A and B, a non-conversation location, and a concrete starting
state. -/
theorem conversation_reset_correct_witness :
    urlObserverStep ⟨"/chat/aaa", "https://claude.ai/chat/aaa"⟩
        ⟨5000, 7, 100, "Mon Jan 01 2024", "https://claude.ai/chat/old", Plan.pro⟩
      = ⟨0, 0, 100, "Mon Jan 01 2024", "https://claude.ai/chat/aaa", Plan.pro⟩
    ∧ urlObserverStep ⟨"/settings", "https://claude.ai/settings"⟩
        ⟨5000, 7, 100, "Mon Jan 01 2024", "https://claude.ai/chat/old", Plan.pro⟩
      = ⟨5000, 7, 100, "Mon Jan 01 2024", "https://claude.ai/chat/old", Plan.pro⟩
    ∧ urlObserverStep ⟨"/chat/aaa", "https://claude.ai/chat/aaa"⟩
        (urlObserverStep ⟨"/chat/bbb", "https://claude.ai/chat/bbb"⟩
          (urlObserverStep ⟨"/chat/aaa", "https://claude.ai/chat/aaa"⟩
            ⟨5000, 7, 100, "Mon Jan 01 2024", "https://claude.ai/chat/old", Plan.pro⟩))
      = ⟨0, 0, 100, "Mon Jan 01 2024", "https://claude.ai/chat/aaa", Plan.pro⟩ :=
  conversation_reset_correct
    ⟨5000, 7, 100, "Mon Jan 01 2024", "https://claude.ai/chat/old", Plan.pro⟩
    ⟨"/chat/aaa", "https://claude.ai/chat/aaa"⟩
    ⟨"/chat/bbb", "https://claude.ai/chat/bbb"⟩
    ⟨"/settings", "https://claude.ai/settings"⟩
    (by decide) (by decide) (by decide) (by decide) (by decide)

/-- C6: starting from a daily token count of 0, applying a sequence of
fresh (unmarked) fragments leaves `dailyTokens` equal to the exact sum of
the individual fragment costs, and along any extension of a fragment
sequence both `dailyTokens` and `currentConversationTokens` are
non-decreasing. -/
theorem counters_conservation_monotone (s : Counters) (c m : Nat)
    (frags frags2 : List MsgNode) :
    (processAll
        { currentConversationTokens := c, currentMessageCount := m, dailyTokens := 0 }
        (frags.map fun n => { n with tokensCounted := false })).dailyTokens
      = (frags.map fragmentCost).sum
    ∧ (processAll s frags).dailyTokens ≤ (processAll s (frags ++ frags2)).dailyTokens
    ∧ (processAll s frags).currentConversationTokens
        ≤ (processAll s (frags ++ frags2)).currentConversationTokens := by
  refine ⟨?_, ?_, ?_⟩
  · rw [processAll_fresh_daily]
    simp
  · rw [processAll_append]
    exact le_processAll_daily _ _
  · rw [processAll_append]
    exact le_processAll_conv _ _

/-- C7: the three ratios divide the counters by the tier tables
(daily limits 100000 / 500000 / 2000000, message limits 50 / 100 / 150)
and the fixed context window 200000; a daily token count of 400000 gives
a daily ratio of exactly 4/5 under pro and exactly 1/5 under max. -/
theorem getRatios_correct (s : Counters) (c m : Nat) :
    (getRatios s .free).dailyRatio = (s.dailyTokens : ℚ) / 100000
    ∧ (getRatios s .pro).dailyRatio = (s.dailyTokens : ℚ) / 500000
    ∧ (getRatios s .max).dailyRatio = (s.dailyTokens : ℚ) / 2000000
    ∧ (getRatios s .free).contextRatio = (s.currentConversationTokens : ℚ) / 200000
    ∧ (getRatios s .pro).contextRatio = (s.currentConversationTokens : ℚ) / 200000
    ∧ (getRatios s .max).contextRatio = (s.currentConversationTokens : ℚ) / 200000
    ∧ (getRatios s .free).messageRatio = (s.currentMessageCount : ℚ) / 50
    ∧ (getRatios s .pro).messageRatio = (s.currentMessageCount : ℚ) / 100
    ∧ (getRatios s .max).messageRatio = (s.currentMessageCount : ℚ) / 150
    ∧ (getRatios ⟨c, m, 400000⟩ .pro).dailyRatio = 4/5
    ∧ (getRatios ⟨c, m, 400000⟩ .max).dailyRatio = 1/5 := by
  refine ⟨?_, ?_, ?_, ?_, ?_, ?_, ?_, ?_, ?_, ?_, ?_⟩ <;>
    norm_num [getRatios, PLAN_LIMITS, MESSAGE_LIMITS, CONTEXT_WINDOW]

/-- C8: for an image with known dimensions the estimator is the
three-bucket step function of the pixel area, and in particular 499×499
costs 1000, 500×500 costs 2500, and 1000×1000 costs 5000. -/
theorem image_buckets_step (w h : Nat) :
    estimateImageTokens
        (some { naturalWidth := w, width := w, naturalHeight := h, height := h })
      = (if w * h < 250000 then 1000 else if w * h < 1000000 then 2500 else 5000)
    ∧ estimateImageTokens (some ⟨499, 499, 499, 499⟩) = 1000
    ∧ estimateImageTokens (some ⟨500, 500, 500, 500⟩) = 2500
    ∧ estimateImageTokens (some ⟨1000, 1000, 1000, 1000⟩) = 5000 := by
  refine ⟨?_, by decide, by decide, by decide⟩
  simp [estimateImageTokens, IMAGE_TOKENS]

/-- C9: when the durable-store write of a fragment application fails, the
in-memory counters keep their incremented values and the stored snapshot
is simply left as it was; the next successful persist writes the full
cumulative totals, and the stored state after a failure followed by a
success equals the stored state had both writes succeeded — no cost is
dropped or applied twice. -/
theorem persist_failure_preserves_counters (st : LedgerState) (t1 t2 : Nat) :
    (applyFragmentPersist st t1 false).mem = applyTokens st.mem t1
    ∧ (applyFragmentPersist st t1 false).store = st.store
    ∧ (applyFragmentPersist (applyFragmentPersist st t1 false) t2 true).store
        = applyTokens (applyTokens st.mem t1) t2
    ∧ (applyFragmentPersist (applyFragmentPersist st t1 false) t2 true).store.dailyTokens
        = st.mem.dailyTokens + (t1 + t2)
    ∧ (applyFragmentPersist (applyFragmentPersist st t1 false) t2 true).store
        = (applyFragmentPersist (applyFragmentPersist st t1 true) t2 true).store := by
  refine ⟨rfl, rfl, rfl, ?_, rfl⟩
  simp [applyFragmentPersist, applyTokens, Nat.add_assoc]

/-- C10: the two resets are frame-disjoint — a conversation-boundary step
never changes `dailyTokens`, `lastResetDate` or `selectedPlan`, and a
daily-reset check never changes `currentConversationTokens`,
`currentMessageCount`, `lastUrl` or `selectedPlan`. -/
theorem resets_frame_disjoint (s : FullState) (loc : Location) (today : String) :
    (urlObserverStep loc s).dailyTokens = s.dailyTokens
    ∧ (urlObserverStep loc s).lastResetDate = s.lastResetDate
    ∧ (urlObserverStep loc s).selectedPlan = s.selectedPlan
    ∧ (checkDailyReset today s).currentConversationTokens = s.currentConversationTokens
    ∧ (checkDailyReset today s).currentMessageCount = s.currentMessageCount
    ∧ (checkDailyReset today s).lastUrl = s.lastUrl
    ∧ (checkDailyReset today s).selectedPlan = s.selectedPlan := by
  unfold urlObserverStep checkDailyReset
  split_ifs <;> simp
